import Mathlib

/-!
Verification of the key-distribution policy engine (`src/lib/key-policy.ts`,
`src/lib/cch-client.ts` and the login/callback routes) against its
natural-language specification.

Timestamps are modelled as integers (milliseconds since the epoch, as in the
JavaScript `Date` representation).  Database rows become Lean structures,
the remote CCH adapter becomes an explicit oracle argument describing the
outcome of each network call, and every adapter call the code issues is
recorded in an explicit call log so that theorems can talk about which calls
were or were not made.
-/

namespace KeyPolicy

/-- `BEIJING_OFFSET_MS` from key-policy.ts: UTC+8 in milliseconds. -/
def BEIJING_OFFSET_MS : Int := 8 * 60 * 60 * 1000

/-- One day in milliseconds (`24 * 60 * 60 * 1000` in the source). -/
def DAY_MS : Int := 24 * 60 * 60 * 1000

/-- `MIN_DAILY_QUOTA_LIMIT` from key-policy.ts. -/
def MIN_DAILY_QUOTA_LIMIT : Int := 1

/-- `MAX_DAILY_QUOTA_LIMIT` from key-policy.ts. -/
def MAX_DAILY_QUOTA_LIMIT : Int := 100000

/-- `clampInteger` from key-policy.ts.  The source also maps non-finite
numbers to `lo` and truncates; in the integer model every value is finite
and already integral, so only the clamping remains. -/
def clampInteger (value lo hi : Int) : Int :=
  min hi (max lo value)

/-- The `systemState` row (`SystemStateRow` in key-policy.ts): the three
tunable policy parameters plus the last-sweep timestamp. -/
structure SystemStateRow where
  dailyQuotaLimit : Int
  dailyReactivateHourBjt : Int
  dailyReactivateMinuteBjt : Int
  lastDailyReactivateAt : Option Int
deriving Repr, DecidableEq

/-- `KeyPolicyConfig` from key-policy.ts (the display label
`dailyReactivateAtLabel`, a pure formatting artefact, is omitted). -/
structure KeyPolicyConfig where
  dailyQuotaLimit : Int
  dailyReactivateHourBjt : Int
  dailyReactivateMinuteBjt : Int
deriving Repr, DecidableEq

/-- `UpdateKeyPolicyInput` from key-policy.ts. -/
structure UpdateKeyPolicyInput where
  dailyQuotaLimit : Int
  dailyReactivateHourBjt : Int
  dailyReactivateMinuteBjt : Int
deriving Repr, DecidableEq

/-- `normalizePolicyConfig` from key-policy.ts: clamp the three tunables
into their valid ranges. -/
def normalizePolicyConfig (limit hour minute : Int) : KeyPolicyConfig :=
  { dailyQuotaLimit := clampInteger limit MIN_DAILY_QUOTA_LIMIT MAX_DAILY_QUOTA_LIMIT
    dailyReactivateHourBjt := clampInteger hour 0 23
    dailyReactivateMinuteBjt := clampInteger minute 0 59 }

/-- `updateKeyPolicyConfig` from key-policy.ts, as a function of the
existing singleton row (the `prisma.systemState.upsert`): when no row
exists the normalized input is created with `lastDailyReactivateAt = null`;
when a row exists only the three normalized tunables are written
(`update: normalized`), leaving `lastDailyReactivateAt` as stored. -/
def updateKeyPolicyConfig (input : UpdateKeyPolicyInput)
    (existing : Option SystemStateRow) : SystemStateRow :=
  let nz := normalizePolicyConfig input.dailyQuotaLimit
    input.dailyReactivateHourBjt input.dailyReactivateMinuteBjt
  match existing with
  | none =>
    { dailyQuotaLimit := nz.dailyQuotaLimit
      dailyReactivateHourBjt := nz.dailyReactivateHourBjt
      dailyReactivateMinuteBjt := nz.dailyReactivateMinuteBjt
      lastDailyReactivateAt := none }
  | some row =>
    { dailyQuotaLimit := nz.dailyQuotaLimit
      dailyReactivateHourBjt := nz.dailyReactivateHourBjt
      dailyReactivateMinuteBjt := nz.dailyReactivateMinuteBjt
      lastDailyReactivateAt := row.lastDailyReactivateAt }

/-- `getBeijingTodayReactivateAtUtc` from key-policy.ts.  The source shifts
`date` by the +08:00 offset, reads that instant's UTC calendar date
(`getUTCFullYear`/`getUTCMonth`/`getUTCDate`) and rebuilds
`Date.UTC(year, month, day, hour, minute)`; decomposing an instant into its
UTC calendar date and rebuilding that date's midnight is exactly flooring
the instant to a multiple of one day, so the construction equals
`floor((date + offset) / day) * day + hour*3600000 + minute*60000 - offset`.
Integer `/` is `Int.ediv`, which is floor division here because
`DAY_MS > 0`. -/
def getBeijingTodayReactivateAtUtc (date hour minute : Int) : Int :=
  (date + BEIJING_OFFSET_MS) / DAY_MS * DAY_MS
    + hour * 3600000 + minute * 60000 - BEIJING_OFFSET_MS

/-- `getLatestDailyReactivateAt` from key-policy.ts: today's boundary if it
is not in the future, otherwise the boundary 24h earlier. -/
def getLatestDailyReactivateAt (date hour minute : Int) : Int :=
  let todayTarget := getBeijingTodayReactivateAtUtc date hour minute
  if todayTarget ≤ date then todayTarget else todayTarget - DAY_MS

/-- `getNextDailyReactivateAt` from key-policy.ts. -/
def getNextDailyReactivateAt (date hour minute : Int) : Int :=
  getLatestDailyReactivateAt date hour minute + DAY_MS

/-- The fields of the backend's `getKeyLimitUsage` response body
(cch-client.ts); each may be absent, which the client replaces by `0`. -/
structure RawQuotaUsage where
  used : Option Int
  limit : Option Int
  remaining : Option Int
deriving Repr, DecidableEq

/-- `CCHQuotaUsage` from cch-client.ts. -/
structure CCHQuotaUsage where
  keyId : Int
  used : Int
  limit : Int
  remaining : Int
deriving Repr, DecidableEq

/-- `getKeyQuotaUsage` from cch-client.ts.  `outcome` stands for the result
of the inner `cchAction` network call; both evolutions of the client wrap
that call in a `try`/`catch` that swallows every error and returns a
zeroed usage object, and absent response fields are defaulted to `0`. -/
def getKeyQuotaUsage (keyId : Int) (outcome : Except Unit RawQuotaUsage) :
    CCHQuotaUsage :=
  match outcome with
  | .ok d =>
    { keyId := keyId
      used := d.used.getD 0
      limit := d.limit.getD 0
      remaining := d.remaining.getD 0 }
  | .error _ => { keyId := keyId, used := 0, limit := 0, remaining := 0 }

/-- `PolicyTrackedUser` from key-policy.ts: the policy-relevant projection
of a user row. -/
structure PolicyTrackedUser where
  id : String
  cchKeyId : Option Int
  isBanned : Bool
  lastLoginAt : Option Int
  lastActivityAt : Option Int
  createdAt : Int
  lastKnownUsage : Int
  quotaWindowStartAt : Option Int
  quotaWindowBaseUsage : Int
  keyAutoDisabled : Bool
  autoDisabledAt : Option Int
deriving Repr, DecidableEq

/-- One `cchClient.toggleKeyEnabled(keyId, enabled)` call, tagged with the
id of the user whose processing issued it (the source logs that id in the
corresponding failure branches). -/
structure AdapterCall where
  userId : String
  keyId : Int
  enabled : Bool
deriving Repr, DecidableEq

/-- `keyStatus` values of `UserPolicyState` in key-policy.ts. -/
inductive KeyStatus where
  | active
  | quota_exhausted
deriving Repr, DecidableEq

/-- `UserPolicyState` from key-policy.ts (the returned projection). -/
structure UserPolicyState where
  usage : Option CCHQuotaUsage
  keyStatus : KeyStatus
  autoDisabledAt : Option Int
  todayUsed : Int
  todayRemaining : Int
  nextDailyReactivateAt : Int
deriving Repr, DecidableEq

/-- Outcomes of the adapter calls a single `evaluateUserKeyPolicy` run can
make: the usage fetch's inner network result, and whether each of the two
possible `toggleKeyEnabled` calls would succeed. -/
structure EvalOracle where
  fetchOutcome : Except Unit RawQuotaUsage
  enableOk : Bool
  disableOk : Bool

/-- Result of one `evaluateUserKeyPolicy` run: the user row as persisted
afterwards, the log of `toggleKeyEnabled` calls issued, and the returned
`UserPolicyState`. -/
structure EvalResult where
  user : PolicyTrackedUser
  calls : List AdapterCall
  state : UserPolicyState
deriving Repr, DecidableEq

/-- `evaluateUserKeyPolicy` from key-policy.ts, lines 256-386, for one user
snapshot `u` (the function re-reads the row; `u` is that fresh row), a
normalized policy config, the current time and the adapter oracle.

Faithful points: the `Number.isFinite` guard on `usage.used` is the
identity in the integer model; `currentUser.quotaWindowBaseUsage ?? used`
never takes the fallback because the field is non-nullable; the stale
quota-window branch re-enables the key inside a `try`/`catch` and resets
the window and the auto-disabled flags whether or not that enable call
succeeded, and it does not test `isBanned`; the disable branch persists
`keyAutoDisabled`/`autoDisabledAt` only when its `toggleKeyEnabled` call
succeeded, and is guarded by the (possibly just cleared) local flag, by
`!currentUser.isBanned` and by `todayUsed >= dailyQuotaLimit`. -/
def evaluateUserKeyPolicy (u : PolicyTrackedUser) (cfg : KeyPolicyConfig)
    (now : Int) (o : EvalOracle) : EvalResult :=
  match u.cchKeyId with
  | none =>
    { user := u
      calls := []
      state :=
        { usage := none
          keyStatus := if u.keyAutoDisabled then .quota_exhausted else .active
          autoDisabledAt := u.autoDisabledAt
          todayUsed := 0
          todayRemaining := cfg.dailyQuotaLimit
          nextDailyReactivateAt := getNextDailyReactivateAt now
            cfg.dailyReactivateHourBjt cfg.dailyReactivateMinuteBjt } }
  | some k =>
    let usage := getKeyQuotaUsage k o.fetchOutcome
    let used := usage.used
    let u1 := if used ≠ u.lastKnownUsage then { u with lastKnownUsage := used } else u
    let latestRefreshAt := getLatestDailyReactivateAt now
      cfg.dailyReactivateHourBjt cfg.dailyReactivateMinuteBjt
    let stale := u.quotaWindowStartAt.getD latestRefreshAt < latestRefreshAt
    let quotaWindowBaseUsage := if stale then used else u.quotaWindowBaseUsage
    let kd1 := if stale then false else u.keyAutoDisabled
    let ad1 := if stale then none else u.autoDisabledAt
    let u2 := if stale then
        { u1 with quotaWindowStartAt := some latestRefreshAt
                  quotaWindowBaseUsage := used
                  keyAutoDisabled := false
                  autoDisabledAt := none }
      else u1
    let calls1 : List AdapterCall := if stale then [⟨u.id, k, true⟩] else []
    let todayUsed := max 0 (used - quotaWindowBaseUsage)
    let todayRemaining := max 0 (cfg.dailyQuotaLimit - todayUsed)
    let disabling := kd1 = false ∧ u.isBanned = false ∧ cfg.dailyQuotaLimit ≤ todayUsed
    if disabling then
      let calls2 := calls1 ++ [⟨u.id, k, false⟩]
      let kd2 := if o.disableOk then true else kd1
      let ad2 := if o.disableOk then some now else ad1
      let u3 := if o.disableOk then
          { u2 with keyAutoDisabled := true, autoDisabledAt := some now }
        else u2
      { user := u3
        calls := calls2
        state :=
          { usage := some usage
            keyStatus := if kd2 then .quota_exhausted else .active
            autoDisabledAt := ad2
            todayUsed := todayUsed
            todayRemaining := todayRemaining
            nextDailyReactivateAt := getNextDailyReactivateAt now
              cfg.dailyReactivateHourBjt cfg.dailyReactivateMinuteBjt } }
    else
      { user := u2
        calls := calls1
        state :=
          { usage := some usage
            keyStatus := if kd1 then .quota_exhausted else .active
            autoDisabledAt := ad1
            todayUsed := todayUsed
            todayRemaining := todayRemaining
            nextDailyReactivateAt := getNextDailyReactivateAt now
              cfg.dailyReactivateHourBjt cfg.dailyReactivateMinuteBjt } }

/-- Per-user adapter outcomes for one sweep run: the usage fetch's inner
network result and whether the `toggleKeyEnabled(_, true)` call succeeds,
both indexed by user id. -/
structure SweepOracle where
  fetchOutcome : String → Except Unit RawQuotaUsage
  enableOk : String → Bool

/-- The persistent state `ensureDailyQuotaRefresh` reads and writes: the
singleton system-state row and the user table. -/
structure World where
  sys : SystemStateRow
  users : List PolicyTrackedUser
deriving DecidableEq

/-- The body of the `users.map(...)` callback in `ensureDailyQuotaRefresh`
(key-policy.ts lines 223-246) for one user.  The database query already
filters on `isBanned: false` and `cchKeyId: { not: null }`; the callback
additionally returns early on the falsy check `!user.cchKeyId`, which in
JavaScript also skips a key id of `0`.  `getKeyQuotaUsage` cannot throw
(it swallows its errors), so the `catch` is reached exactly when the
enable call fails, in which case the user row is left untouched. -/
def sweepUserStep (latestRefreshAt : Int) (o : SweepOracle)
    (u : PolicyTrackedUser) : PolicyTrackedUser × List AdapterCall :=
  if u.isBanned then (u, [])
  else
    match u.cchKeyId with
    | none => (u, [])
    | some k =>
      if k = 0 then (u, [])
      else
        let used := (getKeyQuotaUsage k (o.fetchOutcome u.id)).used
        if o.enableOk u.id then
          ({ u with lastKnownUsage := used
                    quotaWindowStartAt := some latestRefreshAt
                    quotaWindowBaseUsage := used
                    keyAutoDisabled := false
                    autoDisabledAt := none },
           [⟨u.id, k, true⟩])
        else (u, [⟨u.id, k, true⟩])

/-- `ensureDailyQuotaRefresh` from key-policy.ts, lines 193-254.  The
policy config is the stored row normalized (`getKeyPolicyConfig`; its
write-back of corrected values is a no-op on the fields this function
reads).  The sweep returns early when `lastDailyReactivateAt` is non-null
and `>= latestRefreshAt`; otherwise it processes the whole batch — each
user in its own `try`/`catch`, so one failure cannot affect another — and
then writes `lastDailyReactivateAt := latestRefreshAt` exactly once. -/
def ensureDailyQuotaRefresh (now : Int) (o : SweepOracle) (w : World) :
    World × List AdapterCall :=
  let cfg := normalizePolicyConfig w.sys.dailyQuotaLimit
    w.sys.dailyReactivateHourBjt w.sys.dailyReactivateMinuteBjt
  let latestRefreshAt := getLatestDailyReactivateAt now
    cfg.dailyReactivateHourBjt cfg.dailyReactivateMinuteBjt
  let skip : Bool := match w.sys.lastDailyReactivateAt with
    | some t => if latestRefreshAt ≤ t then true else false
    | none => false
  if skip then (w, [])
  else
    let results := w.users.map (sweepUserStep latestRefreshAt o)
    ({ sys := { w.sys with lastDailyReactivateAt := some latestRefreshAt }
       users := results.map Prod.fst },
     (results.map Prod.snd).flatten)

/-- The `errorMessages` record of the login page (src/unnamed/part_010):
error code → dedicated human-readable message. -/
def errorMessages (code : String) : Option String :=
  if code = "missing_params" then some "缺少必要参数"
  else if code = "invalid_state" then some "安全验证失败，请重试"
  else if code = "trust_level_too_low" then some "LinuxDO 信任等级不足，需要等级 1 及以上"
  else if code = "account_restricted" then some "您的 LinuxDO 账号受限"
  else if code = "banned" then some "您已被封禁"
  else if code = "cch_creation_failed" then some "API Key 创建失败，请稍后重试"
  else if code = "cch_reactivate_failed" then some "密钥重新激活失败，请稍后重试"
  else if code = "auth_failed" then some "登录失败，请重试"
  else none

/-- The login page's message resolution (src/unnamed/part_010):
`errorMessages[error] || fallback`. -/
def loginErrorMessage (code : String) : String :=
  (errorMessages code).getD "发生未知错误，请重试"

/-- Failure categories the OAuth callback flow can redirect with (the
error codes attached to the login-page redirect URL). -/
inductive CallbackOutcome where
  | success
  | reactivateFailed
  | authFailed
deriving Repr, DecidableEq

/-- The redirect error code carried by each callback outcome. -/
def callbackErrorCode : CallbackOutcome → Option String
  | .success => none
  | .reactivateFailed => some "cch_reactivate_failed"
  | .authFailed => some "auth_failed"

/-- Modelled from the spec: the Login-Time Reactivator of spec §4.5 is not
present in the sources — the callback route shipped in the corpus only
runs the daily sweep, and only the reactivator's failure-category message
(`cch_reactivate_failed` in the login page's `errorMessages`) is declared.
Per the spec: invoked during the login/callback path for a returning
user; if the user is currently `keyAutoDisabled` and has a remote key,
immediately call the adapter to enable the key; on failure propagate the
error up the OAuth callback flow as the distinct `reactivateFailed`
category. -/
def loginTimeReactivate (u : PolicyTrackedUser) (enableOk : Bool) :
    List AdapterCall × CallbackOutcome :=
  match u.cchKeyId with
  | some k =>
    if u.keyAutoDisabled then
      ([⟨u.id, k, true⟩], if enableOk then .success else .reactivateFailed)
    else ([], .success)
  | none => ([], .success)

/-! ## Helper lemmas -/

/-- The evaluator never writes `lastActivityAt`: the persisted row after an
evaluation carries the same `lastActivityAt` as the row read. -/
theorem eval_preserves_lastActivityAt (u : PolicyTrackedUser)
    (cfg : KeyPolicyConfig) (now : Int) (o : EvalOracle) :
    (evaluateUserKeyPolicy u cfg now o).user.lastActivityAt = u.lastActivityAt := by
  cases hk : u.cchKeyId
  case none => simp [evaluateUserKeyPolicy, hk]
  case some k =>
    simp only [evaluateUserKeyPolicy, hk]
    split_ifs <;> rfl

/-- The evaluator's persisted `lastKnownUsage` after a run on a user with a
remote key is exactly the observed `used` value. -/
theorem eval_lastKnownUsage_eq_used (u : PolicyTrackedUser)
    (cfg : KeyPolicyConfig) (now : Int) (o : EvalOracle) (k : Int)
    (hk : u.cchKeyId = some k) :
    (evaluateUserKeyPolicy u cfg now o).user.lastKnownUsage
      = (getKeyQuotaUsage k o.fetchOutcome).used := by
  simp only [evaluateUserKeyPolicy, hk]
  split_ifs with h1 h2 h3 <;> simp_all

/-- Normal form of the evaluator's `todayUsed` output on a user with a
remote key.  `L` is the latest window boundary and `used` the observed
usage counter; the window base is reset to `used` on a stale window. -/
theorem eval_todayUsed_eq (u : PolicyTrackedUser) (cfg : KeyPolicyConfig)
    (now : Int) (o : EvalOracle) (k L used : Int)
    (hk : u.cchKeyId = some k)
    (hL : L = getLatestDailyReactivateAt now
      cfg.dailyReactivateHourBjt cfg.dailyReactivateMinuteBjt)
    (hu : used = (getKeyQuotaUsage k o.fetchOutcome).used) :
    (evaluateUserKeyPolicy u cfg now o).state.todayUsed
      = max 0 (used - (if u.quotaWindowStartAt.getD L < L then used
          else u.quotaWindowBaseUsage)) := by
  subst hL hu
  simp only [evaluateUserKeyPolicy, hk]
  split_ifs <;> rfl

/-- Normal form of the adapter-call log of one evaluator run on a user
with a remote key: an enable call exactly when the quota window is stale,
followed by a disable call exactly when the threshold branch fires. -/
theorem eval_calls_eq (u : PolicyTrackedUser) (cfg : KeyPolicyConfig)
    (now : Int) (o : EvalOracle) (k L used : Int)
    (hk : u.cchKeyId = some k)
    (hL : L = getLatestDailyReactivateAt now
      cfg.dailyReactivateHourBjt cfg.dailyReactivateMinuteBjt)
    (hu : used = (getKeyQuotaUsage k o.fetchOutcome).used) :
    (evaluateUserKeyPolicy u cfg now o).calls
      = (if u.quotaWindowStartAt.getD L < L then [⟨u.id, k, true⟩] else [])
        ++ (if ((if u.quotaWindowStartAt.getD L < L then false
                  else u.keyAutoDisabled) = false
              ∧ u.isBanned = false
              ∧ cfg.dailyQuotaLimit ≤ max 0 (used -
                  (if u.quotaWindowStartAt.getD L < L then used
                   else u.quotaWindowBaseUsage)))
            then [⟨u.id, k, false⟩] else []) := by
  subst hL hu
  simp only [evaluateUserKeyPolicy, hk]
  split_ifs <;> simp_all

/-- Normal form of the persisted `keyAutoDisabled` flag after one
evaluator run on a user with a remote key. -/
theorem eval_keyAutoDisabled_eq (u : PolicyTrackedUser)
    (cfg : KeyPolicyConfig) (now : Int) (o : EvalOracle) (k L used : Int)
    (hk : u.cchKeyId = some k)
    (hL : L = getLatestDailyReactivateAt now
      cfg.dailyReactivateHourBjt cfg.dailyReactivateMinuteBjt)
    (hu : used = (getKeyQuotaUsage k o.fetchOutcome).used) :
    (evaluateUserKeyPolicy u cfg now o).user.keyAutoDisabled
      = (if ((if u.quotaWindowStartAt.getD L < L then false
               else u.keyAutoDisabled) = false
            ∧ u.isBanned = false
            ∧ cfg.dailyQuotaLimit ≤ max 0 (used -
                (if u.quotaWindowStartAt.getD L < L then used
                 else u.quotaWindowBaseUsage)))
          then (if o.disableOk
                then true
                else if u.quotaWindowStartAt.getD L < L then false
                else u.keyAutoDisabled)
          else if u.quotaWindowStartAt.getD L < L then false
          else u.keyAutoDisabled) := by
  subst hL hu
  simp only [evaluateUserKeyPolicy, hk]
  split_ifs <;> simp_all

/-- Normal form of the persisted `autoDisabledAt` after one evaluator run
on a user with a remote key. -/
theorem eval_autoDisabledAt_eq (u : PolicyTrackedUser)
    (cfg : KeyPolicyConfig) (now : Int) (o : EvalOracle) (k L used : Int)
    (hk : u.cchKeyId = some k)
    (hL : L = getLatestDailyReactivateAt now
      cfg.dailyReactivateHourBjt cfg.dailyReactivateMinuteBjt)
    (hu : used = (getKeyQuotaUsage k o.fetchOutcome).used) :
    (evaluateUserKeyPolicy u cfg now o).user.autoDisabledAt
      = (if ((if u.quotaWindowStartAt.getD L < L then false
               else u.keyAutoDisabled) = false
            ∧ u.isBanned = false
            ∧ cfg.dailyQuotaLimit ≤ max 0 (used -
                (if u.quotaWindowStartAt.getD L < L then used
                 else u.quotaWindowBaseUsage)))
          then (if o.disableOk
                then some now
                else if u.quotaWindowStartAt.getD L < L then none
                else u.autoDisabledAt)
          else if u.quotaWindowStartAt.getD L < L then none
          else u.autoDisabledAt) := by
  subst hL hu
  simp only [evaluateUserKeyPolicy, hk]
  split_ifs <;> simp_all

/-- The returned `keyStatus` mirrors the final `keyAutoDisabled` flag. -/
theorem eval_keyStatus_eq_flag (u : PolicyTrackedUser)
    (cfg : KeyPolicyConfig) (now : Int) (o : EvalOracle) (k : Int)
    (hk : u.cchKeyId = some k) :
    (evaluateUserKeyPolicy u cfg now o).state.keyStatus
      = (if (evaluateUserKeyPolicy u cfg now o).user.keyAutoDisabled
          then .quota_exhausted else .active) := by
  simp only [evaluateUserKeyPolicy, hk]
  split_ifs <;> simp_all

/-! ## Claim theorems -/

/-- C10: `updateKeyPolicyConfig` on an existing row leaves the stored
`lastDailyReactivateAt` unchanged and writes exactly the clamped input
values for the three tunables. -/
theorem updateKeyPolicyConfig_preserves_lastSweep
    (input : UpdateKeyPolicyInput) (row : SystemStateRow) :
    (updateKeyPolicyConfig input (some row)).lastDailyReactivateAt
        = row.lastDailyReactivateAt
    ∧ (updateKeyPolicyConfig input (some row)).dailyQuotaLimit
        = clampInteger input.dailyQuotaLimit MIN_DAILY_QUOTA_LIMIT MAX_DAILY_QUOTA_LIMIT
    ∧ (updateKeyPolicyConfig input (some row)).dailyReactivateHourBjt
        = clampInteger input.dailyReactivateHourBjt 0 23
    ∧ (updateKeyPolicyConfig input (some row)).dailyReactivateMinuteBjt
        = clampInteger input.dailyReactivateMinuteBjt 0 59 :=
  ⟨rfl, rfl, rfl, rfl⟩

/-- C9 counterexample: a user with no remote key but a stored
`keyAutoDisabled = true` is reported as `quota_exhausted`, not `active`,
so the returned status is not vacuously `active`. -/
def noKeyDisabledUser : PolicyTrackedUser :=
  { id := "u9", cchKeyId := none, isBanned := false, lastLoginAt := none
    lastActivityAt := none, createdAt := 0, lastKnownUsage := 0
    quotaWindowStartAt := none, quotaWindowBaseUsage := 0
    keyAutoDisabled := true, autoDisabledAt := some 5 }

theorem eval_noKey_not_always_active :
    (evaluateUserKeyPolicy noKeyDisabledUser ⟨100, 8, 0⟩ 0
      ⟨.error (), true, true⟩).state.keyStatus ≠ .active := by
  decide

/-- C9 amended: for a user with no remote key the evaluator makes no
adapter calls, performs no writes (the persisted row is unchanged),
returns `usage = none` and `todayUsed = 0`, and the returned status
reflects the stored `keyAutoDisabled` flag (so it is `active` exactly when
that flag is false). -/
theorem eval_noKey_skips_usage (u : PolicyTrackedUser)
    (cfg : KeyPolicyConfig) (now : Int) (o : EvalOracle)
    (h : u.cchKeyId = none) :
    (evaluateUserKeyPolicy u cfg now o).calls = []
    ∧ (evaluateUserKeyPolicy u cfg now o).user = u
    ∧ (evaluateUserKeyPolicy u cfg now o).state.usage = none
    ∧ (evaluateUserKeyPolicy u cfg now o).state.todayUsed = 0
    ∧ ((evaluateUserKeyPolicy u cfg now o).state.keyStatus = .active
        ↔ u.keyAutoDisabled = false) := by
  refine ⟨?_, ?_, ?_, ?_, ?_⟩ <;>
    simp only [evaluateUserKeyPolicy, h]
  cases hd : u.keyAutoDisabled <;> simp [hd]

theorem eval_noKey_skips_usage_witness :
    (evaluateUserKeyPolicy
        { noKeyDisabledUser with keyAutoDisabled := false, autoDisabledAt := none }
        ⟨100, 8, 0⟩ 0 ⟨.error (), true, true⟩).calls = [] := by
  have h := eval_noKey_skips_usage
    { noKeyDisabledUser with keyAutoDisabled := false, autoDisabledAt := none }
    ⟨100, 8, 0⟩ 0 ⟨.error (), true, true⟩ rfl
  exact h.1

/-- C6 counterexample: the observed `used` counter strictly increased
(5 → 10) yet the evaluator leaves `lastActivityAt` at its stored value
instead of bumping it to `now`. -/
def activityUser : PolicyTrackedUser :=
  { id := "u6", cchKeyId := some 1, isBanned := false, lastLoginAt := none
    lastActivityAt := some 111, createdAt := 0, lastKnownUsage := 5
    quotaWindowStartAt := some 0, quotaWindowBaseUsage := 0
    keyAutoDisabled := false, autoDisabledAt := none }

theorem eval_usage_increase_does_not_bump_lastActivityAt :
    activityUser.lastKnownUsage
        < (getKeyQuotaUsage 1 (.ok ⟨some 10, some 1000, some 990⟩)).used
    ∧ (evaluateUserKeyPolicy activityUser ⟨100, 8, 0⟩ 7777
        ⟨.ok ⟨some 10, some 1000, some 990⟩, true, true⟩).user.lastActivityAt
        ≠ some 7777 := by
  decide

/-- C6 amended: whenever the observed `used` counter differs from the
stored `lastKnownUsage` — whether it increased or not — the evaluator
persists the new value (the stored counter becomes the observed one), and
it never modifies `lastActivityAt` in either case. -/
theorem eval_usage_updates_lastKnownUsage_only (u : PolicyTrackedUser)
    (cfg : KeyPolicyConfig) (now : Int) (o : EvalOracle) (k : Int)
    (hk : u.cchKeyId = some k) :
    (evaluateUserKeyPolicy u cfg now o).user.lastKnownUsage
        = (getKeyQuotaUsage k o.fetchOutcome).used
    ∧ (evaluateUserKeyPolicy u cfg now o).user.lastActivityAt
        = u.lastActivityAt :=
  ⟨eval_lastKnownUsage_eq_used u cfg now o k hk,
   eval_preserves_lastActivityAt u cfg now o⟩

theorem eval_usage_updates_lastKnownUsage_only_witness :
    (evaluateUserKeyPolicy activityUser ⟨100, 8, 0⟩ 7777
        ⟨.ok ⟨some 10, some 1000, some 990⟩, true, true⟩).user.lastKnownUsage
      = 10 := by
  have h := eval_usage_updates_lastKnownUsage_only activityUser ⟨100, 8, 0⟩ 7777
    ⟨.ok ⟨some 10, some 1000, some 990⟩, true, true⟩ 1 rfl
  exact h.1.trans (by decide)

/-- C5: a banned user whose quota window is stale.  At `now = 0` with the
default 08:00 boundary the latest boundary is instant `0`, so a window
started one day earlier is stale. -/
def bannedStaleUser : PolicyTrackedUser :=
  { id := "banned", cchKeyId := some 7, isBanned := true, lastLoginAt := none
    lastActivityAt := none, createdAt := 0, lastKnownUsage := 0
    quotaWindowStartAt := some (-86400000), quotaWindowBaseUsage := 0
    keyAutoDisabled := true, autoDisabledAt := some (-1) }

/-- C5 (code bug): the evaluator's stale-quota-window branch issues an
enable call for a banned user's key and persists `keyAutoDisabled = false`
for them — the branch re-enables the key without testing `isBanned`,
although the sweeper's query and the evaluator's own disable branch both
exclude banned users. -/
theorem eval_enables_banned_user_on_stale_window :
    bannedStaleUser.isBanned = true
    ∧ bannedStaleUser.keyAutoDisabled = true
    ∧ (evaluateUserKeyPolicy bannedStaleUser ⟨100, 8, 0⟩ 0
        ⟨.ok ⟨some 0, some 0, some 0⟩, true, true⟩).calls
        = [⟨"banned", 7, true⟩]
    ∧ (evaluateUserKeyPolicy bannedStaleUser ⟨100, 8, 0⟩ 0
        ⟨.ok ⟨some 0, some 0, some 0⟩, true, true⟩).user.keyAutoDisabled
        = false := by
  decide

/-- C8 (modelled from the spec, §4.5): during the login/callback path, a
returning user who is currently `keyAutoDisabled` and has a remote key
gets an immediate adapter enable call; when that call fails the outcome is
the dedicated `reactivateFailed` category, whose redirect code
`cch_reactivate_failed` resolves — through the login page's actual
`errorMessages` table — to a message distinct from the generic
`auth_failed` one. -/
theorem loginTimeReactivate_spec (u : PolicyTrackedUser) (k : Int)
    (enableOk : Bool) (hk : u.cchKeyId = some k)
    (hd : u.keyAutoDisabled = true) :
    (loginTimeReactivate u enableOk).1 = [⟨u.id, k, true⟩]
    ∧ (enableOk = false →
        (loginTimeReactivate u enableOk).2 = .reactivateFailed
        ∧ callbackErrorCode (loginTimeReactivate u enableOk).2
            = some "cch_reactivate_failed"
        ∧ loginErrorMessage "cch_reactivate_failed"
            ≠ loginErrorMessage "auth_failed")
    ∧ (enableOk = true → (loginTimeReactivate u enableOk).2 = .success) := by
  refine ⟨?_, ?_, ?_⟩
  · simp [loginTimeReactivate, hk, hd]
  · rintro rfl
    refine ⟨?_, ?_, ?_⟩
    · simp [loginTimeReactivate, hk, hd]
    · simp [loginTimeReactivate, hk, hd, callbackErrorCode]
    · decide
  · rintro rfl
    simp [loginTimeReactivate, hk, hd]

/-- C8 witness fixture: a returning user whose key is auto-disabled. -/
def returningDisabledUser : PolicyTrackedUser :=
  { id := "r8", cchKeyId := some 11, isBanned := false, lastLoginAt := some 1
    lastActivityAt := some 1, createdAt := 0, lastKnownUsage := 40
    quotaWindowStartAt := some 0, quotaWindowBaseUsage := 0
    keyAutoDisabled := true, autoDisabledAt := some 2 }

theorem loginTimeReactivate_spec_witness :
    (loginTimeReactivate returningDisabledUser false).1
      = [⟨"r8", 11, true⟩]
    ∧ (loginTimeReactivate returningDisabledUser false).2 = .reactivateFailed := by
  have h := loginTimeReactivate_spec returningDisabledUser 11 false rfl rfl
  exact ⟨h.1, (h.2.1 rfl).1⟩

/-- C4: for every time and every configured in-range `(hour, minute)`,
the next reactivation instant is strictly after `now` and equals the
latest boundary plus exactly 24 hours; the latest boundary is the most
recent boundary instant not after `now` (it is `≤ now`, within 24h of
`now`, and sits at the configured +08:00 time-of-day, expressed as its
residue modulo one day). -/
theorem getNextDailyReactivateAt_spec (now hour minute : Int)
    (h1 : 0 ≤ hour) (h2 : hour ≤ 23) (h3 : 0 ≤ minute) (h4 : minute ≤ 59) :
    now < getNextDailyReactivateAt now hour minute
    ∧ getNextDailyReactivateAt now hour minute
        = getLatestDailyReactivateAt now hour minute + DAY_MS
    ∧ getLatestDailyReactivateAt now hour minute ≤ now
    ∧ now < getLatestDailyReactivateAt now hour minute + DAY_MS
    ∧ (getLatestDailyReactivateAt now hour minute + BEIJING_OFFSET_MS) % DAY_MS
        = hour * 3600000 + minute * 60000 := by
  simp only [getNextDailyReactivateAt, getLatestDailyReactivateAt,
    getBeijingTodayReactivateAtUtc, DAY_MS, BEIJING_OFFSET_MS]
  norm_num
  split_ifs <;> omega

theorem getNextDailyReactivateAt_spec_witness :
    (0:Int) ≤ 8 ∧ (8:Int) ≤ 23 ∧ (0:Int) ≤ 0 ∧ (0:Int) ≤ 59
    ∧ (1000:Int) < getNextDailyReactivateAt 1000 8 0 :=
  ⟨by norm_num, by norm_num, le_refl 0, by norm_num,
   (getNextDailyReactivateAt_spec 1000 8 0 (by norm_num) (by norm_num)
     (le_refl 0) (by norm_num)).1⟩

/-- C7 counterexample: a usage-fetch failure is swallowed by
`getKeyQuotaUsage`, which reports `used = 0`; the evaluator then
overwrites the stored `lastKnownUsage` (here `5`) with `0`, so the stored
value is not left unchanged. -/
def fetchFailUser : PolicyTrackedUser :=
  { id := "u7", cchKeyId := some 3, isBanned := false, lastLoginAt := none
    lastActivityAt := none, createdAt := 0, lastKnownUsage := 5
    quotaWindowStartAt := some 0, quotaWindowBaseUsage := 0
    keyAutoDisabled := false, autoDisabledAt := none }

theorem eval_fetch_failure_overwrites_lastKnownUsage :
    (evaluateUserKeyPolicy fetchFailUser ⟨100, 8, 0⟩ 0
        ⟨.error (), true, true⟩).user.lastKnownUsage
      ≠ fetchFailUser.lastKnownUsage := by
  decide

/-- C7 amended: on a usage-fetch failure `getKeyQuotaUsage` returns a
zeroed usage object instead of propagating the error, so the evaluator
proceeds with observed `used = 0`: it overwrites `lastKnownUsage` with `0`
(changing it whenever it was nonzero), and while the threshold comparison
still runs, it cannot trigger a disable call in that cycle —
`todayUsed = 0` and every adapter call issued is an enable call — provided
the stored window base usage is nonnegative and the configured daily limit
is at least 1 (both invariants of normalized configs and backend-fed
rows). -/
theorem eval_fetch_failure_amended (u : PolicyTrackedUser)
    (cfg : KeyPolicyConfig) (now : Int) (o : EvalOracle) (k : Int)
    (hk : u.cchKeyId = some k) (hf : o.fetchOutcome = .error ())
    (hl : 1 ≤ cfg.dailyQuotaLimit) (hb : 0 ≤ u.quotaWindowBaseUsage) :
    (evaluateUserKeyPolicy u cfg now o).user.lastKnownUsage = 0
    ∧ (evaluateUserKeyPolicy u cfg now o).state.todayUsed = 0
    ∧ ∀ c ∈ (evaluateUserKeyPolicy u cfg now o).calls, c.enabled = true := by
  have hused : (getKeyQuotaUsage k o.fetchOutcome).used = 0 := by
    rw [hf]; rfl
  refine ⟨?_, ?_, ?_⟩
  · rw [eval_lastKnownUsage_eq_used u cfg now o k hk, hused]
  · rw [eval_todayUsed_eq u cfg now o k _ _ hk rfl hused.symm]
    split_ifs <;> omega
  · rw [eval_calls_eq u cfg now o k _ _ hk rfl hused.symm]
    intro c hc
    rcases List.mem_append.mp hc with h | h
    · split_ifs at h <;> simp_all
    · rw [if_neg] at h
      · simp at h
      · rintro ⟨-, -, h3⟩
        split_ifs at h3 <;> omega

theorem eval_fetch_failure_amended_witness :
    (evaluateUserKeyPolicy fetchFailUser ⟨100, 8, 0⟩ 0
        ⟨.error (), true, true⟩).user.lastKnownUsage = 0 :=
  (eval_fetch_failure_amended fetchFailUser ⟨100, 8, 0⟩ 0
    ⟨.error (), true, true⟩ 3 rfl rfl (by norm_num) (by decide)).1

/-- C1: (first part) for a user with a remote key who is not banned and
not already auto-disabled, once the observed consumption `todayUsed` has
reached or exceeded the configured `dailyQuotaLimit` — the comparison is
inclusive — the evaluator issues the adapter disable call for that user's
key and (the call succeeding) persists `keyAutoDisabled = true` and
`autoDisabledAt = now`, reporting `quota_exhausted`; (second part) the
threshold path never clears the flag: when the quota window is not stale,
an already-auto-disabled user stays auto-disabled after evaluation. -/
theorem eval_disables_at_quota_threshold :
    (∀ (u : PolicyTrackedUser) (cfg : KeyPolicyConfig) (now : Int)
        (o : EvalOracle) (k : Int),
      u.cchKeyId = some k → u.isBanned = false → u.keyAutoDisabled = false →
      cfg.dailyQuotaLimit ≤ (evaluateUserKeyPolicy u cfg now o).state.todayUsed →
      (AdapterCall.mk u.id k false) ∈ (evaluateUserKeyPolicy u cfg now o).calls
      ∧ (o.disableOk = true →
          (evaluateUserKeyPolicy u cfg now o).user.keyAutoDisabled = true
          ∧ (evaluateUserKeyPolicy u cfg now o).user.autoDisabledAt = some now
          ∧ (evaluateUserKeyPolicy u cfg now o).state.keyStatus = .quota_exhausted))
    ∧ (∀ (u : PolicyTrackedUser) (cfg : KeyPolicyConfig) (now : Int)
        (o : EvalOracle),
      u.keyAutoDisabled = true →
      getLatestDailyReactivateAt now cfg.dailyReactivateHourBjt
          cfg.dailyReactivateMinuteBjt
        ≤ u.quotaWindowStartAt.getD (getLatestDailyReactivateAt now
            cfg.dailyReactivateHourBjt cfg.dailyReactivateMinuteBjt) →
      (evaluateUserKeyPolicy u cfg now o).user.keyAutoDisabled = true) := by
  constructor
  · intro u cfg now o k hk hban hkd htu
    rw [eval_todayUsed_eq u cfg now o k _ _ hk rfl rfl] at htu
    have hcond : (if u.quotaWindowStartAt.getD (getLatestDailyReactivateAt now
            cfg.dailyReactivateHourBjt cfg.dailyReactivateMinuteBjt)
          < getLatestDailyReactivateAt now cfg.dailyReactivateHourBjt
            cfg.dailyReactivateMinuteBjt then false else u.keyAutoDisabled) = false
        ∧ u.isBanned = false
        ∧ cfg.dailyQuotaLimit ≤ max 0 ((getKeyQuotaUsage k o.fetchOutcome).used
            - (if u.quotaWindowStartAt.getD (getLatestDailyReactivateAt now
                  cfg.dailyReactivateHourBjt cfg.dailyReactivateMinuteBjt)
                < getLatestDailyReactivateAt now cfg.dailyReactivateHourBjt
                  cfg.dailyReactivateMinuteBjt
               then (getKeyQuotaUsage k o.fetchOutcome).used
               else u.quotaWindowBaseUsage)) := by
      refine ⟨?_, hban, htu⟩
      split_ifs <;> simp [hkd]
    refine ⟨?_, ?_⟩
    · rw [eval_calls_eq u cfg now o k _ _ hk rfl rfl, if_pos hcond]
      simp
    · intro hok
      have hkd2 : (evaluateUserKeyPolicy u cfg now o).user.keyAutoDisabled = true := by
        rw [eval_keyAutoDisabled_eq u cfg now o k _ _ hk rfl rfl, if_pos hcond, hok]
        rfl
      refine ⟨hkd2, ?_, ?_⟩
      · rw [eval_autoDisabledAt_eq u cfg now o k _ _ hk rfl rfl, if_pos hcond, hok]
        rfl
      · rw [eval_keyStatus_eq_flag u cfg now o k hk, hkd2]
        rfl
  · intro u cfg now o hkd hns
    cases hk : u.cchKeyId with
    | none => simp [evaluateUserKeyPolicy, hk, hkd]
    | some k =>
      rw [eval_keyAutoDisabled_eq u cfg now o k _ _ hk rfl rfl]
      have hstale : ¬(u.quotaWindowStartAt.getD (getLatestDailyReactivateAt now
            cfg.dailyReactivateHourBjt cfg.dailyReactivateMinuteBjt)
          < getLatestDailyReactivateAt now cfg.dailyReactivateHourBjt
            cfg.dailyReactivateMinuteBjt) := not_lt.mpr hns
      simp [hstale, hkd]

/-- C1 witness fixture: not banned, not auto-disabled, current window
starting at instant 0 with base usage 0; the backend reports `used = 100`,
exactly the configured limit. -/
def thresholdUser : PolicyTrackedUser :=
  { id := "w1", cchKeyId := some 9, isBanned := false, lastLoginAt := none
    lastActivityAt := none, createdAt := 0, lastKnownUsage := 0
    quotaWindowStartAt := some 0, quotaWindowBaseUsage := 0
    keyAutoDisabled := false, autoDisabledAt := none }

/-- C1 witness fixture: already auto-disabled, window current. -/
def disabledStayUser : PolicyTrackedUser :=
  { id := "w2", cchKeyId := some 9, isBanned := false, lastLoginAt := none
    lastActivityAt := none, createdAt := 0, lastKnownUsage := 100
    quotaWindowStartAt := some 0, quotaWindowBaseUsage := 0
    keyAutoDisabled := true, autoDisabledAt := some (-5) }

theorem eval_disables_at_quota_threshold_witness :
    ((AdapterCall.mk "w1" 9 false) ∈ (evaluateUserKeyPolicy thresholdUser
        ⟨100, 8, 0⟩ 0 ⟨.ok ⟨some 100, some 1000, some 900⟩, true, true⟩).calls
      ∧ (evaluateUserKeyPolicy thresholdUser ⟨100, 8, 0⟩ 0
          ⟨.ok ⟨some 100, some 1000, some 900⟩, true, true⟩).user.keyAutoDisabled = true
      ∧ (evaluateUserKeyPolicy thresholdUser ⟨100, 8, 0⟩ 0
          ⟨.ok ⟨some 100, some 1000, some 900⟩, true, true⟩).user.autoDisabledAt = some 0
      ∧ (evaluateUserKeyPolicy thresholdUser ⟨100, 8, 0⟩ 0
          ⟨.ok ⟨some 100, some 1000, some 900⟩, true, true⟩).state.keyStatus = .quota_exhausted)
    ∧ (evaluateUserKeyPolicy disabledStayUser ⟨100, 8, 0⟩ 0
        ⟨.ok ⟨some 100, some 1000, some 900⟩, true, true⟩).user.keyAutoDisabled = true := by
  constructor
  · have h := eval_disables_at_quota_threshold.1 thresholdUser ⟨100, 8, 0⟩ 0
      ⟨.ok ⟨some 100, some 1000, some 900⟩, true, true⟩ 9 rfl rfl rfl (by decide)
    exact ⟨h.1, (h.2 rfl).1, (h.2 rfl).2.1, (h.2 rfl).2.2⟩
  · exact eval_disables_at_quota_threshold.2 disabledStayUser ⟨100, 8, 0⟩ 0
      ⟨.ok ⟨some 100, some 1000, some 900⟩, true, true⟩ rfl (by decide)

/-- A sweep invoked when the stored last-sweep timestamp is already at or
past the latest window boundary is a no-op: no state change, no calls. -/
theorem ensure_noop_of_done (w : World) (now : Int) (o : SweepOracle) (t : Int)
    (hlast : w.sys.lastDailyReactivateAt = some t)
    (hge : getLatestDailyReactivateAt now
        (normalizePolicyConfig w.sys.dailyQuotaLimit w.sys.dailyReactivateHourBjt
          w.sys.dailyReactivateMinuteBjt).dailyReactivateHourBjt
        (normalizePolicyConfig w.sys.dailyQuotaLimit w.sys.dailyReactivateHourBjt
          w.sys.dailyReactivateMinuteBjt).dailyReactivateMinuteBjt ≤ t) :
    ensureDailyQuotaRefresh now o w = (w, []) := by
  simp [ensureDailyQuotaRefresh, hlast, hge]

/-- When the guard passes (no recorded sweep, or one from before the latest
boundary), the sweep processes the whole batch and stamps the boundary. -/
theorem ensure_of_not_done (w : World) (now : Int) (o : SweepOracle) (L : Int)
    (hL : L = getLatestDailyReactivateAt now
        (normalizePolicyConfig w.sys.dailyQuotaLimit w.sys.dailyReactivateHourBjt
          w.sys.dailyReactivateMinuteBjt).dailyReactivateHourBjt
        (normalizePolicyConfig w.sys.dailyQuotaLimit w.sys.dailyReactivateHourBjt
          w.sys.dailyReactivateMinuteBjt).dailyReactivateMinuteBjt)
    (h : w.sys.lastDailyReactivateAt = none
        ∨ ∃ t, w.sys.lastDailyReactivateAt = some t ∧ t < L) :
    ensureDailyQuotaRefresh now o w
      = ({ sys := { w.sys with lastDailyReactivateAt := some L }
           users := (w.users.map (sweepUserStep L o)).map Prod.fst },
         ((w.users.map (sweepUserStep L o)).map Prod.snd).flatten) := by
  subst hL
  rcases h with hnone | ⟨t, hsome, hlt⟩
  · simp [ensureDailyQuotaRefresh, hnone]
  · simp [ensureDailyQuotaRefresh, hsome, not_le.mpr hlt]

/-- The sweep leaves a user untouched when that user's enable call fails. -/
theorem sweepUserStep_fst_of_fail (L : Int) (o : SweepOracle)
    (u : PolicyTrackedUser) (h : o.enableOk u.id = false) :
    (sweepUserStep L o u).1 = u := by
  by_cases hb : u.isBanned
  · simp [sweepUserStep, hb]
  · cases hk : u.cchKeyId with
    | none => simp [sweepUserStep, hb, hk]
    | some k => by_cases h0 : k = 0 <;> simp [sweepUserStep, hb, hk, h0, h]

/-- The sweep resets an eligible user exactly when that user's enable call
succeeds, regardless of the oracle's answers for any other user. -/
theorem sweepUserStep_fst_of_success (L : Int) (o : SweepOracle)
    (u : PolicyTrackedUser) (k : Int) (hb : u.isBanned = false)
    (hk : u.cchKeyId = some k) (h0 : k ≠ 0) (he : o.enableOk u.id = true) :
    (sweepUserStep L o u).1
      = { u with lastKnownUsage := (getKeyQuotaUsage k (o.fetchOutcome u.id)).used
                 quotaWindowStartAt := some L
                 quotaWindowBaseUsage := (getKeyQuotaUsage k (o.fetchOutcome u.id)).used
                 keyAutoDisabled := false
                 autoDisabledAt := none } := by
  simp [sweepUserStep, hb, hk, h0, he]

/-- A sweep step clears the auto-disabled flag only for an eligible user
whose enable call succeeded. -/
theorem sweepUserStep_cleared_cases (L : Int) (o : SweepOracle)
    (u : PolicyTrackedUser) (h : (sweepUserStep L o u).1.keyAutoDisabled = false) :
    u.keyAutoDisabled = false
    ∨ (u.isBanned = false ∧ ∃ k, u.cchKeyId = some k ∧ k ≠ 0
        ∧ o.enableOk u.id = true) := by
  by_cases hb : u.isBanned
  · simp only [sweepUserStep, hb, if_true] at h
    exact Or.inl h
  · cases hk : u.cchKeyId with
    | none =>
      simp only [sweepUserStep, hb, hk, if_false] at h
      exact Or.inl h
    | some k =>
      by_cases h0 : k = 0
      · simp only [sweepUserStep, hb, hk, h0, if_false] at h
        simp at h
        exact Or.inl h
      · by_cases he : o.enableOk u.id
        · exact Or.inr ⟨by simp [hb], k, rfl, h0, he⟩
        · rw [sweepUserStep_fst_of_fail L o u (by simp [he])] at h
          exact Or.inl h

/-- C2: the sweep is idempotent per reactivation window.  First part: it
does its work only when the stored timestamp is null or strictly earlier
than the latest boundary — otherwise it is a strict no-op.  Second part:
for two invocation times with the same latest boundary (the same window),
running the sweep at the first and then at the second leaves the second
call a no-op making no adapter calls, so each eligible user is
reactivated at most once across both calls. -/
theorem sweep_idempotent_within_window :
    (∀ (w : World) (now : Int) (o : SweepOracle) (t : Int),
      w.sys.lastDailyReactivateAt = some t →
      getLatestDailyReactivateAt now
          (normalizePolicyConfig w.sys.dailyQuotaLimit w.sys.dailyReactivateHourBjt
            w.sys.dailyReactivateMinuteBjt).dailyReactivateHourBjt
          (normalizePolicyConfig w.sys.dailyQuotaLimit w.sys.dailyReactivateHourBjt
            w.sys.dailyReactivateMinuteBjt).dailyReactivateMinuteBjt ≤ t →
      ensureDailyQuotaRefresh now o w = (w, []))
    ∧ (∀ (w : World) (now1 now2 : Int) (o1 o2 : SweepOracle),
      getLatestDailyReactivateAt now1
          (normalizePolicyConfig w.sys.dailyQuotaLimit w.sys.dailyReactivateHourBjt
            w.sys.dailyReactivateMinuteBjt).dailyReactivateHourBjt
          (normalizePolicyConfig w.sys.dailyQuotaLimit w.sys.dailyReactivateHourBjt
            w.sys.dailyReactivateMinuteBjt).dailyReactivateMinuteBjt
        = getLatestDailyReactivateAt now2
          (normalizePolicyConfig w.sys.dailyQuotaLimit w.sys.dailyReactivateHourBjt
            w.sys.dailyReactivateMinuteBjt).dailyReactivateHourBjt
          (normalizePolicyConfig w.sys.dailyQuotaLimit w.sys.dailyReactivateHourBjt
            w.sys.dailyReactivateMinuteBjt).dailyReactivateMinuteBjt →
      ensureDailyQuotaRefresh now2 o2 (ensureDailyQuotaRefresh now1 o1 w).1
        = ((ensureDailyQuotaRefresh now1 o1 w).1, [])) := by
  constructor
  · exact fun w now o t hlast hge => ensure_noop_of_done w now o t hlast hge
  · intro w now1 now2 o1 o2 hsame
    cases hlast : w.sys.lastDailyReactivateAt with
    | none =>
      rw [ensure_of_not_done w now1 o1 _ rfl (Or.inl hlast)]
      exact ensure_noop_of_done _ now2 o2 _ rfl (le_of_eq hsame.symm)
    | some t =>
      by_cases hskip : getLatestDailyReactivateAt now1
          (normalizePolicyConfig w.sys.dailyQuotaLimit w.sys.dailyReactivateHourBjt
            w.sys.dailyReactivateMinuteBjt).dailyReactivateHourBjt
          (normalizePolicyConfig w.sys.dailyQuotaLimit w.sys.dailyReactivateHourBjt
            w.sys.dailyReactivateMinuteBjt).dailyReactivateMinuteBjt ≤ t
      · rw [ensure_noop_of_done w now1 o1 t hlast hskip]
        exact ensure_noop_of_done w now2 o2 t hlast
          (le_trans (le_of_eq hsame.symm) hskip)
      · rw [ensure_of_not_done w now1 o1 _ rfl
          (Or.inr ⟨t, hlast, not_le.mp hskip⟩)]
        exact ensure_noop_of_done _ now2 o2 _ rfl (le_of_eq hsame.symm)

def sweepWorld : World :=
  { sys := { dailyQuotaLimit := 100, dailyReactivateHourBjt := 8
             dailyReactivateMinuteBjt := 0, lastDailyReactivateAt := none }
    users := [thresholdUser] }

def sweepOracleAllOk : SweepOracle :=
  { fetchOutcome := fun _ => .ok ⟨some 0, some 0, some 0⟩
    enableOk := fun _ => true }

theorem sweep_idempotent_within_window_witness :
    (ensureDailyQuotaRefresh 500 sweepOracleAllOk
        { sweepWorld with sys := { sweepWorld.sys with lastDailyReactivateAt := some 0 } }
      = ({ sweepWorld with sys := { sweepWorld.sys with lastDailyReactivateAt := some 0 } }, []))
    ∧ ensureDailyQuotaRefresh 1000 sweepOracleAllOk
        (ensureDailyQuotaRefresh 500 sweepOracleAllOk sweepWorld).1
      = ((ensureDailyQuotaRefresh 500 sweepOracleAllOk sweepWorld).1, []) := by
  constructor
  · exact sweep_idempotent_within_window.1
      { sweepWorld with sys := { sweepWorld.sys with lastDailyReactivateAt := some 0 } }
      500 sweepOracleAllOk 0 rfl (by decide)
  · exact sweep_idempotent_within_window.2 sweepWorld 500 1000
      sweepOracleAllOk sweepOracleAllOk (by decide)

/-- C3: during a triggered sweep (guard passed), (1) the last-sweep
timestamp is written exactly once, to the latest boundary, regardless of
how many per-user calls failed (the oracle is arbitrary); (2) the batch
has the same length; and per user: a user's `keyAutoDisabled` flag ends up
cleared only if it already was clear or that user's own enable call
succeeded; an eligible user whose enable call succeeds is reset —
whatever the oracle answers for every other user, so one user's failure
cannot block another — and a user whose enable call fails is left
completely untouched. -/
theorem sweep_batch_error_handling (w : World) (now : Int) (o : SweepOracle)
    (L : Int)
    (hL : L = getLatestDailyReactivateAt now
        (normalizePolicyConfig w.sys.dailyQuotaLimit w.sys.dailyReactivateHourBjt
          w.sys.dailyReactivateMinuteBjt).dailyReactivateHourBjt
        (normalizePolicyConfig w.sys.dailyQuotaLimit w.sys.dailyReactivateHourBjt
          w.sys.dailyReactivateMinuteBjt).dailyReactivateMinuteBjt)
    (hguard : w.sys.lastDailyReactivateAt = none
        ∨ ∃ t, w.sys.lastDailyReactivateAt = some t ∧ t < L) :
    (ensureDailyQuotaRefresh now o w).1.sys.lastDailyReactivateAt = some L
    ∧ (ensureDailyQuotaRefresh now o w).1.users.length = w.users.length
    ∧ ∀ (i : Nat) (h : i < w.users.length)
        (h2 : i < (ensureDailyQuotaRefresh now o w).1.users.length),
      (((ensureDailyQuotaRefresh now o w).1.users.get ⟨i, h2⟩).keyAutoDisabled = false →
        (w.users.get ⟨i, h⟩).keyAutoDisabled = false
        ∨ ((w.users.get ⟨i, h⟩).isBanned = false
            ∧ ∃ k, (w.users.get ⟨i, h⟩).cchKeyId = some k ∧ k ≠ 0
            ∧ o.enableOk (w.users.get ⟨i, h⟩).id = true))
      ∧ (∀ k, (w.users.get ⟨i, h⟩).isBanned = false →
          (w.users.get ⟨i, h⟩).cchKeyId = some k → k ≠ 0 →
          o.enableOk (w.users.get ⟨i, h⟩).id = true →
          (ensureDailyQuotaRefresh now o w).1.users.get ⟨i, h2⟩
            = { w.users.get ⟨i, h⟩ with
                lastKnownUsage := (getKeyQuotaUsage k
                  (o.fetchOutcome (w.users.get ⟨i, h⟩).id)).used
                quotaWindowStartAt := some L
                quotaWindowBaseUsage := (getKeyQuotaUsage k
                  (o.fetchOutcome (w.users.get ⟨i, h⟩).id)).used
                keyAutoDisabled := false
                autoDisabledAt := none })
      ∧ (o.enableOk (w.users.get ⟨i, h⟩).id = false →
          (ensureDailyQuotaRefresh now o w).1.users.get ⟨i, h2⟩
            = w.users.get ⟨i, h⟩) := by
  have hrun := ensure_of_not_done w now o L hL hguard
  refine ⟨by rw [hrun], by rw [hrun]; simp, ?_⟩
  intro i h h2
  have husers : (ensureDailyQuotaRefresh now o w).1.users
      = (w.users.map (sweepUserStep L o)).map Prod.fst := by rw [hrun]
  have hget : (ensureDailyQuotaRefresh now o w).1.users.get ⟨i, h2⟩
      = (sweepUserStep L o (w.users.get ⟨i, h⟩)).1 := by
    rw [List.get_of_eq husers]
    simp
  rw [hget]
  exact ⟨sweepUserStep_cleared_cases L o _,
    fun k hb hk h0 he => sweepUserStep_fst_of_success L o _ k hb hk h0 he,
    fun hf => sweepUserStep_fst_of_fail L o _ hf⟩

/-- C3 witness fixture: two users with keys, the first one's enable call
fails while the second one's succeeds. -/
def mixedWorld : World :=
  { sys := { dailyQuotaLimit := 100, dailyReactivateHourBjt := 8
             dailyReactivateMinuteBjt := 0, lastDailyReactivateAt := none }
    users := [{ thresholdUser with id := "f1", keyAutoDisabled := true },
              { thresholdUser with id := "s2", keyAutoDisabled := true }] }

def mixedOracle : SweepOracle :=
  { fetchOutcome := fun _ => .ok ⟨some 3, some 0, some 0⟩
    enableOk := fun uid => if uid = "s2" then true else false }

theorem sweep_batch_error_handling_witness :
    (ensureDailyQuotaRefresh 0 mixedOracle mixedWorld).1.sys.lastDailyReactivateAt
      = some 0
    ∧ (ensureDailyQuotaRefresh 0 mixedOracle mixedWorld).1.users.get
        ⟨0, by decide⟩
      = mixedWorld.users.get ⟨0, by decide⟩ := by
  have h := sweep_batch_error_handling mixedWorld 0 mixedOracle 0
    (by decide) (Or.inl rfl)
  refine ⟨h.1, ?_⟩
  exact (h.2.2 0 (by decide) (by decide)).2.2 (by decide)

end KeyPolicy
